import Mathlib

/-!
# flyvr_sound_server: wavetable oscillator and PortAudio stream lifecycle

A shallow embedding of `src/audio/sound_server/src/flyvr_sound_server.cpp`.

* `Sine` is the oscillator class; its methods are functions that take the
  object and return the updated object together with the method's result.
* The PortAudio library is not part of the repository. The constants of
  `portaudio.h` are a parameter (`PaConsts`), the answers of the library to
  the calls of one run are a parameter (`PaLib`).
* A result of `none` stands for undefined behaviour of the C++ program
  (a read outside the wavetable, a null pointer dereference).
-/

namespace FlyVR

/-! ## Constants of the source file -/

/-- Source line 36: `#define NUM_SECONDS (5)`. -/
abbrev NUM_SECONDS : Nat := 5

/-- Source line 37: `#define SAMPLE_RATE (44100)`. -/
abbrev SAMPLE_RATE : Nat := 44100

/-- Source line 43: `#define TABLE_SIZE (100)`. -/
abbrev TABLE_SIZE : Nat := 100

/-! ## Types of `portaudio.h` -/

/-- The type `PaError` is a C `int`. -/
abbrev PaError := Int

/-- The type `PaDeviceIndex` is a C `int`. -/
abbrev PaDeviceIndex := Int

/-- A non-null `PaStream*`. The member `stream` is an `Option PaStream`,
where `none` is the null pointer `0`. -/
abbrev PaStream := Nat

/-- The type `PaTime` is a C `double`, kept as its IEEE-754 binary64 bit
pattern. The program only compares a `PaTime` with `0.0` and passes it on. -/
structure PaTime where
  bits : Nat
  deriving DecidableEq, Repr

/-- The literal `0.0`. -/
def PaTime.zero : PaTime := ⟨0⟩

/-- The C test `t == 0.0` on a double: true exactly for the bit patterns of
`+0.0` and `-0.0` (all bits below the sign bit are clear). -/
def PaTime.eqZero (t : PaTime) : Bool := t.bits % 2 ^ 63 == 0

/-- The constants of `portaudio.h` the program uses; the header is not in
the repository, so they are a parameter. -/
structure PaConsts where
  paNoError : PaError
  paNoDevice : PaDeviceIndex
  paFloat32 : Nat
  paClipOff : Nat
  paContinue : Int
  paFramesPerBufferUnspecified : Nat

/-- The values the PortAudio v19 header gives to the constants. -/
def portaudio_h : PaConsts where
  paNoError := 0
  paNoDevice := -1
  paFloat32 := 1
  paClipOff := 1
  paContinue := 0
  paFramesPerBufferUnspecified := 0

/-- The fields of `PaDeviceInfo` the program reads. -/
structure PaDeviceInfo where
  name : String
  defaultLowOutputLatency : PaTime
  deriving DecidableEq, Repr

/-- The struct `PaStreamParameters`; `hostApiSpecificStreamInfo = none` is
`NULL`. -/
structure PaStreamParameters where
  device : PaDeviceIndex
  channelCount : Int
  sampleFormat : Nat
  suggestedLatency : PaTime
  hostApiSpecificStreamInfo : Option Nat
  deriving DecidableEq, Repr

/-! ## The oscillator state -/

/-- The data members of `class Sine` (source lines 220-225). The type `α` is
the type of a `float` sample; `sine` is the array `float sine[TABLE_SIZE]`. -/
structure Sine (α : Type) where
  stream : Option PaStream
  sine : Fin TABLE_SIZE → α
  left_phase : Int
  right_phase : Int
  message : String
  lastFramesPerBuffer : Nat

/-- What the constructor of `Sine` takes from the machine: `sinf i` is the
value `(float) sin(((double)i/(double)TABLE_SIZE) * M_PI * 2.)` stored in
`sine[i]`, and `uninit` is the indeterminate content of the member
`lastFramesPerBuffer`, which the constructor does not initialise. -/
structure Machine (α : Type) where
  sinf : Nat → α
  uninit : Nat

/-- The constructor `Sine::Sine()` (source lines 48-57). -/
def Sine.new {α : Type} (M : Machine α) : Sine α where
  stream := none
  sine := fun i => M.sinf i.val
  left_phase := 0
  right_phase := 0
  message := "No Message"
  lastFramesPerBuffer := M.uninit

/-- The array read `sine[i]` for an `int` index: defined only inside the
array. -/
def Sine.readTable {α : Type} (s : Sine α) (i : Int) : Option α :=
  if h : 0 ≤ i ∧ i < (TABLE_SIZE : Int) then some (s.sine ⟨i.toNat, by omega⟩) else none

/-- What one call of the render callback produces: the object afterwards,
the samples written through `out` in order, the table indices read in
order, and the returned value. -/
structure Rendered (α : Type) where
  state : Sine α
  out : List α
  reads : List Int
  ret : Int

/-- The `for` loop of `paCallbackMethod` (source lines 174-182), for the
remaining number of iterations. The increment `left_phase += 1` cannot
overflow an `int` here, because the read before it has succeeded. -/
def Sine.renderLoop {α : Type} : Nat → Sine α → Option (Sine α × List α × List Int)
  | 0, s => some (s, [], [])
  | k + 1, s =>
    match s.readTable s.left_phase, s.readTable s.right_phase with
    | some l, some r =>
      let left_phase := s.left_phase + 1
      let left_phase := if left_phase ≥ (TABLE_SIZE : Int) then left_phase - TABLE_SIZE else left_phase
      let right_phase := s.right_phase + 1
      let right_phase := if right_phase ≥ (TABLE_SIZE : Int) then right_phase - TABLE_SIZE else right_phase
      match Sine.renderLoop k { s with left_phase := left_phase, right_phase := right_phase } with
      | some (s', out, reads) => some (s', l :: r :: out, s.left_phase :: s.right_phase :: reads)
      | none => none
    | _, _ => none

/-- The method `Sine::paCallbackMethod` (source lines 160-186). -/
def Sine.paCallbackMethod {α : Type} (K : PaConsts) (s : Sine α) (framesPerBuffer : Nat) :
    Option (Rendered α) :=
  let s := { s with lastFramesPerBuffer := framesPerBuffer }
  match s.renderLoop framesPerBuffer with
  | some (s', out, reads) => some { state := s', out := out, reads := reads, ret := K.paContinue }
  | none => none

/-- The static method `Sine::paCallback` (source lines 192-204): it forwards
to the object passed as `userData`. -/
def Sine.paCallback {α : Type} (K : PaConsts) (userData : Sine α) (framesPerBuffer : Nat) :
    Option (Rendered α) :=
  userData.paCallbackMethod K framesPerBuffer

/-- The method `Sine::getLastFramesPerBuffer` (source lines 153-156). -/
def Sine.getLastFramesPerBuffer {α : Type} (s : Sine α) : Nat :=
  s.lastFramesPerBuffer

/-- A sequence of callbacks, each with its own `framesPerBuffer`, run one
after the other on the same object. -/
def Sine.runCallbacks {α : Type} (K : PaConsts) : List Nat → Sine α → Option (Sine α)
  | [], s => some s
  | n :: ns, s =>
    match s.paCallbackMethod K n with
    | some r => Sine.runCallbacks K ns r.state
    | none => none

/-! ## The PortAudio library as seen by one run -/

/-- A call of a PortAudio function, with the arguments the program passes.
`Pa_OpenStream` lists the input parameters (`none` is `NULL`), the output
parameters, the sample rate, the frames per buffer and the stream flags;
the callback and the user data are always `&Sine::paCallback` and `this`. -/
inductive PaCall where
  | Pa_Initialize
  | Pa_Terminate
  | Pa_GetDefaultOutputDevice
  | Pa_GetDeviceInfo (device : PaDeviceIndex)
  | Pa_OpenStream (inputParameters : Option PaStreamParameters)
      (outputParameters : PaStreamParameters) (sampleRate : Nat) (framesPerBuffer : Nat)
      (streamFlags : Nat)
  | Pa_SetStreamFinishedCallback (stream : PaStream)
  | Pa_StartStream (stream : PaStream)
  | Pa_StopStream (stream : PaStream)
  | Pa_CloseStream (stream : PaStream)
  | Pa_Sleep (msec : Nat)
  | Pa_GetErrorText (errorCode : PaError)
  deriving DecidableEq, Repr

/-- One `printf` or `fprintf` statement of the source with its arguments. -/
inductive Output where
  /-- Line 262, "PortAudio Test: output sine wave. SR = %d, BufSize = %d". -/
  | banner (sampleRate : Nat) (bufSize : Nat)
  /-- Line 75, "Output device name: %s". -/
  | deviceName (name : String)
  /-- Line 115, "suggestedLatency = %8.4f". -/
  | suggestedLatency (t : PaTime)
  /-- Line 271, "Play for %d seconds.". -/
  | playFor (seconds : Nat)
  /-- Line 275, "LastFramesPerBuffer = %d". -/
  | lastFramesPerBuffer (n : Nat)
  /-- Line 283, "Test finished.". -/
  | testFinished
  /-- Line 209, "Stream Completed: %s". -/
  | streamCompleted (message : String)
  /-- Line 287, "An error occured while using the portaudio stream". -/
  | errorOccured
  /-- Line 288, "Error number: %d". -/
  | errorNumber (e : PaError)
  /-- Line 289, "Error message: %s". -/
  | errorMessage (text : String)
  deriving DecidableEq, Repr

/-- What the calling thread does that is visible from outside, in order. -/
inductive Event where
  | call (c : PaCall)
  | stdout (o : Output)
  | stderr (o : Output)
  deriving DecidableEq, Repr

/-- The answers of the library during one run. `Pa_OpenStream` stores
`newStream` through its first argument when it returns `paNoError` and
leaves the pointer alone otherwise. `Pa_GetDeviceInfo` answers `none` for
`NULL`. `callbacks` lists the `framesPerBuffer` of the render callbacks
the library's thread runs while the calling thread sleeps. -/
structure PaLib where
  Pa_Initialize : PaError
  Pa_GetDefaultOutputDevice : PaDeviceIndex
  Pa_GetDeviceInfo : PaDeviceIndex → Option PaDeviceInfo
  Pa_OpenStream : PaStreamParameters → Nat → Nat → Nat → PaError
  newStream : PaStream
  Pa_SetStreamFinishedCallback : PaStream → PaError
  Pa_StartStream : PaStream → PaError
  Pa_StopStream : PaStream → PaError
  Pa_CloseStream : PaStream → PaError
  Pa_GetErrorText : PaError → String
  callbacks : List Nat

/-- The PortAudio calls of a trace, in order. -/
def calls : List Event → List PaCall
  | [] => []
  | Event.call c :: t => c :: calls t
  | _ :: t => calls t

/-- The lines written to standard error in a trace, in order. -/
def stderrOf : List Event → List Output
  | [] => []
  | Event.stderr o :: t => o :: stderrOf t
  | _ :: t => stderrOf t

/-- The lines written to standard output in a trace, in order. -/
def stdoutOf : List Event → List Output
  | [] => []
  | Event.stdout o :: t => o :: stdoutOf t
  | _ :: t => stdoutOf t

/-! ## The stream methods of `Sine` -/

/-- The method `Sine::open` (source lines 59-119): the object afterwards,
the returned `bool` and the events. The result is `none` when line 82
dereferences the `NULL` that `Pa_GetDeviceInfo` returned. -/
def Sine.open {α : Type} (K : PaConsts) (lib : PaLib) (s : Sine α) (index : PaDeviceIndex)
    (FramesPerBuffer : Nat) (suggestedLatency : PaTime) :
    Option (Sine α × Bool × List Event) :=
  let FramesPerBuffer :=
    if FramesPerBuffer = 0 then K.paFramesPerBufferUnspecified else FramesPerBuffer
  if index = K.paNoDevice then some (s, false, [])
  else
    let pInfo := lib.Pa_GetDeviceInfo index
    let t1 : List Event := Event.call (PaCall.Pa_GetDeviceInfo index) ::
      (match pInfo with
       | some info => [Event.stdout (Output.deviceName info.name)]
       | none => [])
    let latency : Option (PaTime × List Event) :=
      if suggestedLatency.eqZero then
        match lib.Pa_GetDeviceInfo index with
        | some info =>
          some (info.defaultLowOutputLatency, [Event.call (PaCall.Pa_GetDeviceInfo index)])
        | none => none
      else some (suggestedLatency, [])
    match latency with
    | none => none
    | some (lat, t2) =>
      let outputParameters : PaStreamParameters :=
        { device := index, channelCount := 2, sampleFormat := K.paFloat32,
          suggestedLatency := lat, hostApiSpecificStreamInfo := none }
      let err := lib.Pa_OpenStream outputParameters SAMPLE_RATE FramesPerBuffer K.paClipOff
      let t3 := t1 ++ t2 ++
        [Event.call (PaCall.Pa_OpenStream none outputParameters SAMPLE_RATE FramesPerBuffer
          K.paClipOff)]
      if err ≠ K.paNoError then some (s, false, t3)
      else
        let stream := lib.newStream
        let err := lib.Pa_SetStreamFinishedCallback stream
        let t4 := t3 ++ [Event.call (PaCall.Pa_SetStreamFinishedCallback stream)]
        if err ≠ K.paNoError then
          some ({ s with stream := none }, false,
            t4 ++ [Event.call (PaCall.Pa_CloseStream stream)])
        else
          some ({ s with stream := some stream }, true,
            t4 ++ [Event.stdout (Output.suggestedLatency lat)])

/-- The method `Sine::close` (source lines 121-130). -/
def Sine.close {α : Type} (K : PaConsts) (lib : PaLib) (s : Sine α) :
    Sine α × Bool × List Event :=
  match s.stream with
  | none => (s, false, [])
  | some stream =>
    let err := lib.Pa_CloseStream stream
    ({ s with stream := none }, decide (err = K.paNoError),
      [Event.call (PaCall.Pa_CloseStream stream)])

/-- The method `Sine::start` (source lines 133-141). -/
def Sine.start {α : Type} (K : PaConsts) (lib : PaLib) (s : Sine α) :
    Sine α × Bool × List Event :=
  match s.stream with
  | none => (s, false, [])
  | some stream =>
    let err := lib.Pa_StartStream stream
    (s, decide (err = K.paNoError), [Event.call (PaCall.Pa_StartStream stream)])

/-- The method `Sine::stop` (source lines 143-151). -/
def Sine.stop {α : Type} (K : PaConsts) (lib : PaLib) (s : Sine α) :
    Sine α × Bool × List Event :=
  match s.stream with
  | none => (s, false, [])
  | some stream =>
    let err := lib.Pa_StopStream stream
    (s, decide (err = K.paNoError), [Event.call (PaCall.Pa_StopStream stream)])

/-- The method `Sine::paStreamFinishedMethod` (source lines 207-210), which
the library's thread runs when the stream has finished. -/
def Sine.paStreamFinishedMethod {α : Type} (s : Sine α) : List Event :=
  [Event.stdout (Output.streamCompleted s.message)]

/-- The static method `Sine::paStreamFinished` (source lines 215-218): it
forwards to the object passed as `userData`. -/
def Sine.paStreamFinished {α : Type} (userData : Sine α) : List Event :=
  userData.paStreamFinishedMethod

/-! ## The initialisation guard -/

/-- The class `ScopedPaHandler` (source lines 228-247). -/
structure ScopedPaHandler where
  _result : PaError
  deriving DecidableEq, Repr

/-- The constructor of `ScopedPaHandler`: it calls `Pa_Initialize`. -/
def ScopedPaHandler.new (lib : PaLib) : ScopedPaHandler × List Event :=
  ({ _result := lib.Pa_Initialize }, [Event.call PaCall.Pa_Initialize])

/-- The destructor of `ScopedPaHandler`. -/
def ScopedPaHandler.destroy (K : PaConsts) (h : ScopedPaHandler) : List Event :=
  if h._result = K.paNoError then [Event.call PaCall.Pa_Terminate] else []

/-- The method `ScopedPaHandler::result`. -/
def ScopedPaHandler.result (h : ScopedPaHandler) : PaError := h._result

/-! ## The program -/

/-- The command line as `main` uses it: `argc`, the value `atoi(argv[1])`
and the value `atof(argv[2])` (each read only when present). -/
structure Argv where
  argc : Nat
  atoi_argv1 : Int
  atof_argv2 : PaTime

/-- How a run of `main` ends: the returned status, the oscillator object at
the `return`, and the events of the calling thread up to and including the
destructor of the guard. -/
structure Exit (α : Type) where
  status : Int
  sine : Sine α
  trace : List Event

/-- The values `main` gives to `FramesPerBuffer` (source lines 255-258): the
`int` of `atoi` converted to `unsigned long`. -/
def mainFramesPerBuffer (a : Argv) : Nat :=
  if a.argc > 1 then (a.atoi_argv1 % 2 ^ 64).toNat else 0

/-- The value `main` gives to `suggestedLatency` (source lines 256-260). -/
def mainSuggestedLatency (a : Argv) : PaTime :=
  if a.argc > 2 then a.atof_argv2 else PaTime.zero

/-- The function `main` (source lines 251-291). The render callbacks of the
library's thread run on the object while the calling thread is in
`Pa_Sleep`. The result is `none` when the run has undefined behaviour. -/
def main {α : Type} (K : PaConsts) (lib : PaLib) (M : Machine α) (a : Argv) :
    Option (Exit α) :=
  let sine := Sine.new M
  let FramesPerBuffer := mainFramesPerBuffer a
  let suggestedLatency := mainSuggestedLatency a
  let t0 : List Event := [Event.stdout (Output.banner SAMPLE_RATE FramesPerBuffer)]
  let (paInit, ti) := ScopedPaHandler.new lib
  if paInit.result ≠ K.paNoError then
    some { status := 1, sine := sine,
           trace := t0 ++ ti ++
             [Event.stderr Output.errorOccured,
              Event.stderr (Output.errorNumber paInit.result),
              Event.call (PaCall.Pa_GetErrorText paInit.result),
              Event.stderr (Output.errorMessage (lib.Pa_GetErrorText paInit.result))] ++
             paInit.destroy K }
  else
    let t1 := t0 ++ ti ++ [Event.call PaCall.Pa_GetDefaultOutputDevice]
    match sine.open K lib lib.Pa_GetDefaultOutputDevice FramesPerBuffer suggestedLatency with
    | none => none
    | some (sine, opened, topen) =>
      if opened then
        let (sine, started, ts) := sine.start K lib
        if started then
          match sine.runCallbacks K lib.callbacks with
          | none => none
          | some sine =>
            let tp : List Event :=
              [Event.stdout (Output.playFor NUM_SECONDS),
               Event.call (PaCall.Pa_Sleep (NUM_SECONDS * 5000)),
               Event.stdout (Output.lastFramesPerBuffer sine.getLastFramesPerBuffer)]
            let (sine, _, tst) := sine.stop K lib
            let (sine, _, tc) := sine.close K lib
            some { status := K.paNoError, sine := sine,
                   trace := t1 ++ topen ++ ts ++ tp ++ tst ++ tc ++
                     [Event.stdout Output.testFinished] ++ paInit.destroy K }
        else
          let (sine, _, tc) := sine.close K lib
          some { status := K.paNoError, sine := sine,
                 trace := t1 ++ topen ++ ts ++ tc ++
                   [Event.stdout Output.testFinished] ++ paInit.destroy K }
      else
        some { status := K.paNoError, sine := sine,
               trace := t1 ++ topen ++ [Event.stdout Output.testFinished] ++ paInit.destroy K }

/-! ## Observations on traces and states -/

/-- Both phase indices are inside the wavetable. -/
def Sine.InRange {α : Type} (s : Sine α) : Prop :=
  (0 ≤ s.left_phase ∧ s.left_phase < (TABLE_SIZE : Int)) ∧
  (0 ≤ s.right_phase ∧ s.right_phase < (TABLE_SIZE : Int))

instance {α : Type} (s : Sine α) : Decidable s.InRange := by
  unfold Sine.InRange; infer_instance

/-- The arguments of the `Pa_OpenStream` calls of a trace, in order: input
parameters, output parameters, sample rate, frames per buffer, flags. -/
def openStreamCalls :
    List Event → List (Option PaStreamParameters × PaStreamParameters × Nat × Nat × Nat)
  | [] => []
  | Event.call (PaCall.Pa_OpenStream i o sr fpb fl) :: t => (i, o, sr, fpb, fl) :: openStreamCalls t
  | _ :: t => openStreamCalls t

/-- The durations, in milliseconds, of the `Pa_Sleep` calls of a trace. -/
def sleepCalls : List Event → List Nat
  | [] => []
  | Event.call (PaCall.Pa_Sleep ms) :: t => ms :: sleepCalls t
  | _ :: t => sleepCalls t

/-- The streams passed to the `Pa_CloseStream` calls of a list of calls. -/
def closeCalls : List PaCall → List PaStream
  | [] => []
  | PaCall.Pa_CloseStream st :: t => st :: closeCalls t
  | _ :: t => closeCalls t

/-- How many `Pa_Terminate` calls a list of calls holds. -/
def terminateCount : List PaCall → Nat
  | [] => 0
  | PaCall.Pa_Terminate :: t => terminateCount t + 1
  | _ :: t => terminateCount t

/-- The library's promise about the default output device: when
`Pa_GetDefaultOutputDevice` names a device, `Pa_GetDeviceInfo` knows it. -/
def PaLib.DefaultDeviceKnown (K : PaConsts) (lib : PaLib) : Prop :=
  lib.Pa_GetDefaultOutputDevice ≠ K.paNoDevice →
    (lib.Pa_GetDeviceInfo lib.Pa_GetDefaultOutputDevice).isSome = true

instance (K : PaConsts) (lib : PaLib) : Decidable (lib.DefaultDeviceKnown K) := by
  unfold PaLib.DefaultDeviceKnown; infer_instance

/-- Every library call of a run succeeds: initialisation, a default output
device with a device info, and the stream calls for every argument. -/
def PaLib.AllSucceed (K : PaConsts) (lib : PaLib) : Prop :=
  lib.Pa_Initialize = K.paNoError ∧
  lib.Pa_GetDefaultOutputDevice ≠ K.paNoDevice ∧
  (lib.Pa_GetDeviceInfo lib.Pa_GetDefaultOutputDevice).isSome = true ∧
  (∀ p sr f fl, lib.Pa_OpenStream p sr f fl = K.paNoError) ∧
  (∀ st, lib.Pa_SetStreamFinishedCallback st = K.paNoError) ∧
  (∀ st, lib.Pa_StartStream st = K.paNoError) ∧
  (∀ st, lib.Pa_StopStream st = K.paNoError) ∧
  (∀ st, lib.Pa_CloseStream st = K.paNoError)

/-! ## Concrete runs used as examples -/

/-- A library in which every call succeeds: one output device with index
`0`, stream handle `1`, and three render callbacks of 64 frames. -/
def goodLib : PaLib where
  Pa_Initialize := 0
  Pa_GetDefaultOutputDevice := 0
  Pa_GetDeviceInfo := fun i =>
    if i = 0 then some { name := "default", defaultLowOutputLatency := ⟨7⟩ } else none
  Pa_OpenStream := fun _ _ _ _ => 0
  newStream := 1
  Pa_SetStreamFinishedCallback := fun _ => 0
  Pa_StartStream := fun _ => 0
  Pa_StopStream := fun _ => 0
  Pa_CloseStream := fun _ => 0
  Pa_GetErrorText := fun _ => "Success"
  callbacks := [64, 64, 64]

/-- A machine whose wavetable entry `i` is the number `i`. -/
def testMachine : Machine Nat where
  sinf := fun i => i
  uninit := 12345

/-- The command line without arguments. -/
def noArgs : Argv where
  argc := 1
  atoi_argv1 := 0
  atof_argv2 := PaTime.zero

/-- The command line `256 0.05` (the latency as the bits of the double). -/
def twoArgs : Argv where
  argc := 3
  atoi_argv1 := 256
  atof_argv2 := ⟨0x3FA999999999999A⟩

/-- A library in which `Pa_Initialize` fails with `paNotInitialized`. -/
def initFailLib : PaLib :=
  { goodLib with Pa_Initialize := -10000, Pa_GetErrorText := fun _ => "PortAudio not initialized" }

/-- A library in which `Pa_OpenStream` fails with `paInvalidDevice`. -/
def openFailLib : PaLib :=
  { goodLib with Pa_OpenStream := fun _ _ _ _ => -9996 }

/-- A library in which `Pa_StartStream` fails with `paInternalError`. -/
def startFailLib : PaLib :=
  { goodLib with Pa_StartStream := fun _ => -9986 }

/-- An oscillator whose phases differ: 98 on the left and 3 on the right. -/
def skewedSine : Sine Nat :=
  { Sine.new testMachine with left_phase := 98, right_phase := 3 }


/-! ## Lemmas on the oscillator -/

theorem readTable_isSome_iff {α : Type} (s : Sine α) (i : Int) :
    (s.readTable i).isSome = true ↔ 0 ≤ i ∧ i < (TABLE_SIZE : Int) := by
  unfold Sine.readTable
  by_cases h : 0 ≤ i ∧ i < (TABLE_SIZE : Int)
  · simp [h]
  · simp only [h, dite_false, Option.isSome_none, iff_false]
    simp

theorem readTable_eq_of_table_eq {α : Type} (s t : Sine α) (h : s.sine = t.sine) (i : Int) :
    s.readTable i = t.readTable i := by
  unfold Sine.readTable
  rw [h]

theorem wrap_eq (p : Int) (h0 : 0 ≤ p) (h1 : p < (TABLE_SIZE : Int)) :
    (if p + 1 ≥ (TABLE_SIZE : Int) then p + 1 - (TABLE_SIZE : Int) else p + 1)
      = (p + 1) % (TABLE_SIZE : Int) := by
  simp only [TABLE_SIZE, Nat.cast_ofNat] at *
  split <;> omega

/-- The loop in closed form, from a state with both phases in range. -/
theorem renderLoop_closed {α : Type} (n : Nat) :
    ∀ s : Sine α, s.InRange →
      ∃ out reads,
        s.renderLoop n = some
          ({ s with left_phase := (s.left_phase + n) % (TABLE_SIZE : Int),
                    right_phase := (s.right_phase + n) % (TABLE_SIZE : Int) }, out, reads) ∧
        out.length = 2 * n ∧ reads.length = 2 * n ∧
        (∀ i, i < n →
          out[2 * i]? = s.readTable ((s.left_phase + i) % (TABLE_SIZE : Int)) ∧
          out[2 * i + 1]? = s.readTable ((s.right_phase + i) % (TABLE_SIZE : Int)) ∧
          reads[2 * i]? = some ((s.left_phase + i) % (TABLE_SIZE : Int)) ∧
          reads[2 * i + 1]? = some ((s.right_phase + i) % (TABLE_SIZE : Int))) := by
  induction n with
  | zero =>
    intro s h
    obtain ⟨⟨hl0, hl1⟩, hr0, hr1⟩ := h
    refine ⟨[], [], ?_, rfl, rfl, ?_⟩
    · simp only [Sine.renderLoop]
      have e1 : (s.left_phase + ((0 : Nat) : Int)) % (TABLE_SIZE : Int) = s.left_phase := by
        simp only [TABLE_SIZE, Nat.cast_ofNat] at *; omega
      have e2 : (s.right_phase + ((0 : Nat) : Int)) % (TABLE_SIZE : Int) = s.right_phase := by
        simp only [TABLE_SIZE, Nat.cast_ofNat] at *; omega
      rw [e1, e2]
    · intro i hi; omega
  | succ k ih =>
    intro s h
    obtain ⟨⟨hl0, hl1⟩, hr0, hr1⟩ := h
    have hl : (s.readTable s.left_phase).isSome = true := (readTable_isSome_iff s _).2 ⟨hl0, hl1⟩
    have hr : (s.readTable s.right_phase).isSome = true := (readTable_isSome_iff s _).2 ⟨hr0, hr1⟩
    obtain ⟨l, hl'⟩ := Option.isSome_iff_exists.1 hl
    obtain ⟨r, hr'⟩ := Option.isSome_iff_exists.1 hr
    let s1 : Sine α :=
      { s with left_phase := (s.left_phase + 1) % (TABLE_SIZE : Int),
               right_phase := (s.right_phase + 1) % (TABLE_SIZE : Int) }
    have hs1 : s1.InRange := by
      simp only [Sine.InRange, s1, TABLE_SIZE, Nat.cast_ofNat] at *
      omega
    obtain ⟨out, reads, hrun, hlen, hrlen, hidx⟩ := ih s1 hs1
    refine ⟨l :: r :: out, s.left_phase :: s.right_phase :: reads, ?_, ?_, ?_, ?_⟩
    · simp only [Sine.renderLoop, hl', hr', wrap_eq _ hl0 hl1, wrap_eq _ hr0 hr1]
      have hrun' := hrun
      simp only [s1] at hrun'
      rw [hrun']
      have e1 : ((s.left_phase + 1) % (TABLE_SIZE : Int) + (k : Int)) % (TABLE_SIZE : Int)
          = (s.left_phase + ((k + 1 : Nat) : Int)) % (TABLE_SIZE : Int) := by
        simp only [TABLE_SIZE, Nat.cast_ofNat, Nat.cast_add, Nat.cast_one]; omega
      have e2 : ((s.right_phase + 1) % (TABLE_SIZE : Int) + (k : Int)) % (TABLE_SIZE : Int)
          = (s.right_phase + ((k + 1 : Nat) : Int)) % (TABLE_SIZE : Int) := by
        simp only [TABLE_SIZE, Nat.cast_ofNat, Nat.cast_add, Nat.cast_one]; omega
      simp only [e1, e2]
    · simp only [List.length_cons, hlen]; omega
    · simp only [List.length_cons, hrlen]; omega
    · intro i hi
      cases i with
      | zero =>
        have e1 : (s.left_phase + ((0 : Nat) : Int)) % (TABLE_SIZE : Int) = s.left_phase := by
          simp only [TABLE_SIZE, Nat.cast_ofNat] at *; omega
        have e2 : (s.right_phase + ((0 : Nat) : Int)) % (TABLE_SIZE : Int) = s.right_phase := by
          simp only [TABLE_SIZE, Nat.cast_ofNat] at *; omega
        simp only [e1, e2, hl', hr']
        simp
      | succ j =>
        have hj : j < k := by omega
        obtain ⟨a1, a2, a3, a4⟩ := hidx j hj
        have e1 : ((s.left_phase + 1) % (TABLE_SIZE : Int) + (j : Int)) % (TABLE_SIZE : Int)
            = (s.left_phase + ((j + 1 : Nat) : Int)) % (TABLE_SIZE : Int) := by
          simp only [TABLE_SIZE, Nat.cast_ofNat, Nat.cast_add, Nat.cast_one]; omega
        have e2 : ((s.right_phase + 1) % (TABLE_SIZE : Int) + (j : Int)) % (TABLE_SIZE : Int)
            = (s.right_phase + ((j + 1 : Nat) : Int)) % (TABLE_SIZE : Int) := by
          simp only [TABLE_SIZE, Nat.cast_ofNat, Nat.cast_add, Nat.cast_one]; omega
        have t1 : s1.readTable = s.readTable := by
          funext x; exact readTable_eq_of_table_eq s1 s rfl x
        simp only [s1, e1, e2] at a1 a2 a3 a4
        have t1' := t1
        simp only [s1] at t1'
        rw [t1'] at a1 a2
        have i1 : 2 * (j + 1) = (2 * j) + 1 + 1 := by omega
        have i2 : 2 * (j + 1) + 1 = (2 * j + 1) + 1 + 1 := by omega
        rw [i2, i1]
        simp only [List.getElem?_cons_succ]
        exact ⟨a1, a2, a3, a4⟩

theorem mod_table_range (x : Int) :
    0 ≤ x % (TABLE_SIZE : Int) ∧ x % (TABLE_SIZE : Int) < (TABLE_SIZE : Int) := by
  simp only [TABLE_SIZE, Nat.cast_ofNat]
  omega

/-- The callback in closed form, from a state with both phases in range. -/
theorem paCallbackMethod_closed {α : Type} (K : PaConsts) (s : Sine α) (n : Nat)
    (h : s.InRange) :
    ∃ out reads,
      s.paCallbackMethod K n = some
        { state := { s with left_phase := (s.left_phase + n) % (TABLE_SIZE : Int),
                            right_phase := (s.right_phase + n) % (TABLE_SIZE : Int),
                            lastFramesPerBuffer := n },
          out := out, reads := reads, ret := K.paContinue } ∧
      out.length = 2 * n ∧ reads.length = 2 * n ∧
      (∀ i, i < n →
        out[2 * i]? = s.readTable ((s.left_phase + i) % (TABLE_SIZE : Int)) ∧
        out[2 * i + 1]? = s.readTable ((s.right_phase + i) % (TABLE_SIZE : Int)) ∧
        reads[2 * i]? = some ((s.left_phase + i) % (TABLE_SIZE : Int)) ∧
        reads[2 * i + 1]? = some ((s.right_phase + i) % (TABLE_SIZE : Int))) := by
  obtain ⟨out, reads, hrun, hlen, hrlen, hidx⟩ :=
    renderLoop_closed n { s with lastFramesPerBuffer := n } h
  refine ⟨out, reads, ?_, hlen, hrlen, ?_⟩
  · simp only [Sine.paCallbackMethod, hrun]
  · intro i hi
    obtain ⟨a1, a2, a3, a4⟩ := hidx i hi
    exact ⟨a1, a2, a3, a4⟩

/-- Every index listed in `reads` by the closed form is inside the table. -/
theorem reads_in_table (reads : List Int) (n : Nat) (L R : Int)
    (hlen : reads.length = 2 * n)
    (hidx : ∀ i, i < n →
      reads[2 * i]? = some ((L + i) % (TABLE_SIZE : Int)) ∧
      reads[2 * i + 1]? = some ((R + i) % (TABLE_SIZE : Int))) :
    ∀ j ∈ reads, 0 ≤ j ∧ j < (TABLE_SIZE : Int) := by
  intro j hj
  obtain ⟨m, hm⟩ := List.mem_iff_getElem?.1 hj
  have hmlt : m < reads.length := by
    by_contra hc
    have : reads[m]? = none := List.getElem?_eq_none (by omega)
    rw [this] at hm
    cases hm
  rcases Nat.even_or_odd' m with ⟨c, hc | hc⟩
  · have hcn : c < n := by omega
    have := (hidx c hcn).1
    rw [← hc, hm] at this
    cases this
    exact mod_table_range _
  · have hcn : c < n := by omega
    have := (hidx c hcn).2
    rw [← hc, hm] at this
    cases this
    exact mod_table_range _

/-- A sequence of callbacks from an in-range state runs to the end, stays
in range, keeps equal phases equal, and touches neither the table, nor the
stream handle, nor the message. -/
theorem runCallbacks_total {α : Type} (K : PaConsts) (ns : List Nat) :
    ∀ s : Sine α, s.InRange →
      ∃ s', s.runCallbacks K ns = some s' ∧ s'.InRange ∧
        (s.right_phase = s.left_phase → s'.right_phase = s'.left_phase) ∧
        s'.sine = s.sine ∧ s'.stream = s.stream ∧ s'.message = s.message := by
  induction ns with
  | nil =>
    intro s h
    exact ⟨s, rfl, h, fun e => e, rfl, rfl, rfl⟩
  | cons n ns ih =>
    intro s h
    obtain ⟨out, reads, hrun, -, -, -⟩ := paCallbackMethod_closed K s n h
    obtain ⟨s', hs', hin, heq, hsine, hstream, hmsg⟩ :=
      ih (Sine.mk s.stream s.sine ((s.left_phase + n) % (TABLE_SIZE : Int))
        ((s.right_phase + n) % (TABLE_SIZE : Int)) s.message n)
        ⟨mod_table_range _, mod_table_range _⟩
    refine ⟨s', ?_, hin, ?_, hsine, hstream, hmsg⟩
    · simp only [Sine.runCallbacks, hrun, hs']
    · intro e
      apply heq
      simp only [e]

theorem new_inRange {α : Type} (M : Machine α) : (Sine.new M).InRange := by
  simp [Sine.InRange, Sine.new]

/-! ## The oscillator claims -/

/-- C1. Phase-range invariant: the constructor sets both phases to 0; from
every state with both phases in `[0, TABLE_SIZE)` the callback with any
frame count `n` (0 included) returns, leaves both phases in
`[0, TABLE_SIZE)`, and each of its `2 * n` table reads uses an index in
`[0, TABLE_SIZE)`; and every state reached from construction by any
sequence `ns` of callbacks has both phases in `[0, TABLE_SIZE)`. -/
theorem phase_range_invariant {α : Type} (K : PaConsts) (M : Machine α) (s : Sine α)
    (n : Nat) (ns : List Nat) (h : s.InRange) :
    ((Sine.new M).left_phase = 0 ∧ (Sine.new M).right_phase = 0) ∧
    (∃ r, s.paCallbackMethod K n = some r ∧
      (0 ≤ r.state.left_phase ∧ r.state.left_phase < (TABLE_SIZE : Int)) ∧
      (0 ≤ r.state.right_phase ∧ r.state.right_phase < (TABLE_SIZE : Int)) ∧
      r.reads.length = 2 * n ∧
      ∀ j ∈ r.reads, 0 ≤ j ∧ j < (TABLE_SIZE : Int)) ∧
    (∃ s', (Sine.new M).runCallbacks K ns = some s' ∧
      (0 ≤ s'.left_phase ∧ s'.left_phase < (TABLE_SIZE : Int)) ∧
      (0 ≤ s'.right_phase ∧ s'.right_phase < (TABLE_SIZE : Int))) := by
  refine ⟨⟨rfl, rfl⟩, ?_, ?_⟩
  · obtain ⟨out, reads, hrun, -, hrlen, hidx⟩ := paCallbackMethod_closed K s n h
    refine ⟨_, hrun, mod_table_range _, mod_table_range _, hrlen, ?_⟩
    exact reads_in_table reads n s.left_phase s.right_phase hrlen
      (fun i hi => ⟨(hidx i hi).2.2.1, (hidx i hi).2.2.2⟩)
  · obtain ⟨s', hs', hin, -⟩ := runCallbacks_total K ns (Sine.new M) (new_inRange M)
    exact ⟨s', hs', hin.1, hin.2⟩

/-- C1 at a concrete input: a state with phases 99 and 42, a callback of
250 frames, and the callback sequence 64, 0, 1000. -/
theorem phase_range_invariant_witness :
    (Sine.InRange { Sine.new testMachine with left_phase := 99, right_phase := 42 }) ∧
    (((Sine.new testMachine).left_phase = 0 ∧ (Sine.new testMachine).right_phase = 0) ∧
    (∃ r, Sine.paCallbackMethod portaudio_h
        { Sine.new testMachine with left_phase := 99, right_phase := 42 } 250 = some r ∧
      (0 ≤ r.state.left_phase ∧ r.state.left_phase < (TABLE_SIZE : Int)) ∧
      (0 ≤ r.state.right_phase ∧ r.state.right_phase < (TABLE_SIZE : Int)) ∧
      r.reads.length = 2 * 250 ∧
      ∀ j ∈ r.reads, 0 ≤ j ∧ j < (TABLE_SIZE : Int)) ∧
    (∃ s', (Sine.new testMachine).runCallbacks portaudio_h [64, 0, 1000] = some s' ∧
      (0 ≤ s'.left_phase ∧ s'.left_phase < (TABLE_SIZE : Int)) ∧
      (0 ≤ s'.right_phase ∧ s'.right_phase < (TABLE_SIZE : Int)))) :=
  ⟨by decide,
   phase_range_invariant portaudio_h testMachine
     { Sine.new testMachine with left_phase := 99, right_phase := 42 } 250 [64, 0, 1000]
     (by decide)⟩

/-- C2. Left/right lock-step: in the state reached from a freshly
constructed `Sine` by any sequence `ns` of callbacks `right_phase` equals
`left_phase`; a further callback of any `n` frames keeps them equal, and
in each of its `n` frames the right sample written equals the left sample
written, read at the same table index. -/
theorem left_right_lockstep {α : Type} (K : PaConsts) (M : Machine α) (ns : List Nat)
    (n : Nat) :
    ∃ s, (Sine.new M).runCallbacks K ns = some s ∧ s.right_phase = s.left_phase ∧
      ∃ r, s.paCallbackMethod K n = some r ∧
        r.state.right_phase = r.state.left_phase ∧
        r.out.length = 2 * n ∧
        ∀ i, i < n → ∃ x j, r.out[2 * i]? = some x ∧ r.out[2 * i + 1]? = some x ∧
          r.reads[2 * i]? = some j ∧ r.reads[2 * i + 1]? = some j := by
  obtain ⟨s, hs, hin, heq, -⟩ := runCallbacks_total K ns (Sine.new M) (new_inRange M)
  have e : s.right_phase = s.left_phase := heq rfl
  obtain ⟨out, reads, hrun, hlen, -, hidx⟩ := paCallbackMethod_closed K s n hin
  refine ⟨s, hs, e, _, hrun, ?_, hlen, ?_⟩
  · simp only [e]
  · intro i hi
    obtain ⟨a1, a2, a3, a4⟩ := hidx i hi
    have hsome : (s.readTable ((s.left_phase + i) % (TABLE_SIZE : Int))).isSome = true :=
      (readTable_isSome_iff s _).2 (mod_table_range _)
    obtain ⟨x, hx⟩ := Option.isSome_iff_exists.1 hsome
    refine ⟨x, (s.left_phase + i) % (TABLE_SIZE : Int), ?_, ?_, a3, ?_⟩
    · simp only [a1, hx]
    · simp only [a2, e, hx]
    · simp only [a4, e]

/-- C2 at a concrete input: after callbacks of 64, 7 and 333 frames, a
callback of 5 frames. -/
theorem left_right_lockstep_witness :
    ∃ s, (Sine.new testMachine).runCallbacks portaudio_h [64, 7, 333] = some s ∧
      s.right_phase = s.left_phase ∧
      ∃ r, s.paCallbackMethod portaudio_h 5 = some r ∧
        r.state.right_phase = r.state.left_phase ∧
        r.out.length = 2 * 5 ∧
        ∀ i, i < 5 → ∃ x j, r.out[2 * i]? = some x ∧ r.out[2 * i + 1]? = some x ∧
          r.reads[2 * i]? = some j ∧ r.reads[2 * i + 1]? = some j :=
  left_right_lockstep portaudio_h testMachine [64, 7, 333] 5

/-- C3. Closed form of one render call: from a state with phases `L` and
`R` in `[0, TABLE_SIZE)`, the callback with `n` frames returns `paContinue`,
writes exactly `2 * n` samples with `out[2*i] = sine[(L+i) mod 100]` and
`out[2*i+1] = sine[(R+i) mod 100]` for every `i < n` (both reads are inside
the table), and leaves the object equal to the old one except that
`left_phase = (L+n) mod 100`, `right_phase = (R+n) mod 100` and
`lastFramesPerBuffer = n`; so `getLastFramesPerBuffer` returns `n` and the
table and the stream handle are unchanged. -/
theorem render_closed_form {α : Type} (K : PaConsts) (s : Sine α) (n : Nat)
    (hL : 0 ≤ s.left_phase ∧ s.left_phase < (TABLE_SIZE : Int))
    (hR : 0 ≤ s.right_phase ∧ s.right_phase < (TABLE_SIZE : Int)) :
    ∃ r, s.paCallbackMethod K n = some r ∧
      r.ret = K.paContinue ∧
      r.out.length = 2 * n ∧
      (∀ i, i < n →
        ∃ x y, s.readTable ((s.left_phase + i) % (TABLE_SIZE : Int)) = some x ∧
          s.readTable ((s.right_phase + i) % (TABLE_SIZE : Int)) = some y ∧
          r.out[2 * i]? = some x ∧ r.out[2 * i + 1]? = some y) ∧
      r.state = { s with left_phase := (s.left_phase + n) % (TABLE_SIZE : Int),
                         right_phase := (s.right_phase + n) % (TABLE_SIZE : Int),
                         lastFramesPerBuffer := n } ∧
      r.state.getLastFramesPerBuffer = n ∧
      r.state.sine = s.sine ∧ r.state.stream = s.stream := by
  obtain ⟨out, reads, hrun, hlen, -, hidx⟩ := paCallbackMethod_closed K s n ⟨hL, hR⟩
  refine ⟨_, hrun, rfl, hlen, ?_, rfl, rfl, rfl, rfl⟩
  intro i hi
  obtain ⟨a1, a2, -, -⟩ := hidx i hi
  have h1 : (s.readTable ((s.left_phase + i) % (TABLE_SIZE : Int))).isSome = true :=
    (readTable_isSome_iff s _).2 (mod_table_range _)
  have h2 : (s.readTable ((s.right_phase + i) % (TABLE_SIZE : Int))).isSome = true :=
    (readTable_isSome_iff s _).2 (mod_table_range _)
  obtain ⟨x, hx⟩ := Option.isSome_iff_exists.1 h1
  obtain ⟨y, hy⟩ := Option.isSome_iff_exists.1 h2
  exact ⟨x, y, hx, hy, by simp only [a1, hx], by simp only [a2, hy]⟩

/-- C3 at a concrete input: phases 98 and 3, five frames. -/
theorem render_closed_form_witness :
    (0 ≤ skewedSine.left_phase ∧ skewedSine.left_phase < (TABLE_SIZE : Int)) ∧
    (0 ≤ skewedSine.right_phase ∧ skewedSine.right_phase < (TABLE_SIZE : Int)) ∧
    ∃ r, skewedSine.paCallbackMethod portaudio_h 5 = some r ∧
      r.ret = portaudio_h.paContinue ∧
      r.out.length = 2 * 5 ∧
      (∀ i : Nat, i < 5 →
        ∃ x y, skewedSine.readTable ((skewedSine.left_phase + i) % (TABLE_SIZE : Int)) = some x ∧
          skewedSine.readTable ((skewedSine.right_phase + i) % (TABLE_SIZE : Int)) = some y ∧
          r.out[2 * i]? = some x ∧ r.out[2 * i + 1]? = some y) ∧
      r.state = { skewedSine with
                    left_phase := (skewedSine.left_phase + (5 : Nat)) % (TABLE_SIZE : Int),
                    right_phase := (skewedSine.right_phase + (5 : Nat)) % (TABLE_SIZE : Int),
                    lastFramesPerBuffer := 5 } ∧
      r.state.getLastFramesPerBuffer = 5 ∧
      r.state.sine = skewedSine.sine ∧ r.state.stream = skewedSine.stream :=
  ⟨by decide, by decide, render_closed_form portaudio_h skewedSine 5 (by decide) (by decide)⟩

/-- The render of three frames from phases 98 and 3, evaluated: the samples
written, the phases afterwards, the recorded frame count and the result. -/
theorem render_example :
    (skewedSine.paCallbackMethod portaudio_h 3).map
        (fun r => (r.out, r.reads, r.state.left_phase, r.state.right_phase,
          r.state.lastFramesPerBuffer, r.ret))
      = some ([98, 3, 99, 4, 0, 5], [98, 3, 99, 4, 0, 5], 1, 6, 3, 0) := by
  decide

/-! ## Lemmas on traces -/

theorem calls_append (a b : List Event) : calls (a ++ b) = calls a ++ calls b := by
  induction a with
  | nil => rfl
  | cons e t ih => cases e <;> simp [calls, ih]

theorem stderrOf_append (a b : List Event) : stderrOf (a ++ b) = stderrOf a ++ stderrOf b := by
  induction a with
  | nil => rfl
  | cons e t ih => cases e <;> simp [stderrOf, ih]

theorem stdoutOf_append (a b : List Event) : stdoutOf (a ++ b) = stdoutOf a ++ stdoutOf b := by
  induction a with
  | nil => rfl
  | cons e t ih => cases e <;> simp [stdoutOf, ih]

theorem openStreamCalls_append (a b : List Event) :
    openStreamCalls (a ++ b) = openStreamCalls a ++ openStreamCalls b := by
  induction a with
  | nil => rfl
  | cons e t ih =>
    cases e with
    | call c => cases c <;> simp [openStreamCalls, ih]
    | stdout o => simp [openStreamCalls, ih]
    | stderr o => simp [openStreamCalls, ih]

theorem sleepCalls_append (a b : List Event) :
    sleepCalls (a ++ b) = sleepCalls a ++ sleepCalls b := by
  induction a with
  | nil => rfl
  | cons e t ih =>
    cases e with
    | call c => cases c <;> simp [sleepCalls, ih]
    | stdout o => simp [sleepCalls, ih]
    | stderr o => simp [sleepCalls, ih]

theorem closeCalls_append (a b : List PaCall) :
    closeCalls (a ++ b) = closeCalls a ++ closeCalls b := by
  induction a with
  | nil => rfl
  | cons c t ih => cases c <;> simp [closeCalls, ih]

theorem terminateCount_append (a b : List PaCall) :
    terminateCount (a ++ b) = terminateCount a + terminateCount b := by
  induction a with
  | nil => simp [terminateCount]
  | cons c t ih => cases c <;> simp [terminateCount, ih]; omega

/-! ## Lemmas on `Sine::open` -/

/-- With no device, `open` returns `false` at once. -/
theorem open_noDevice {α : Type} (K : PaConsts) (lib : PaLib) (s : Sine α)
    (F : Nat) (lat : PaTime) :
    s.open K lib K.paNoDevice F lat = some (s, false, []) := by
  simp [Sine.open]

/-- With a device that has no device info and a latency of `0.0`, `open`
dereferences a null pointer. -/
theorem open_nullInfo {α : Type} (K : PaConsts) (lib : PaLib) (s : Sine α)
    (index : PaDeviceIndex) (F : Nat) (lat : PaTime) (hidx : index ≠ K.paNoDevice)
    (hz : lat.eqZero = true) (hnone : lib.Pa_GetDeviceInfo index = none) :
    s.open K lib index F lat = none := by
  simp [Sine.open, hidx, hz, hnone]

/-- The result of `open` for a device, when line 82 has a device info to
read: the calls made, the returned value and the stream handle. -/
theorem open_device {α : Type} (K : PaConsts) (lib : PaLib) (s : Sine α)
    (index : PaDeviceIndex) (F : Nat) (lat : PaTime) (info : PaDeviceInfo)
    (hidx : index ≠ K.paNoDevice)
    (hinfo : lat.eqZero = true → lib.Pa_GetDeviceInfo index = some info) :
    ∃ s' ok tr, s.open K lib index F lat = some (s', ok, tr) ∧
      stderrOf tr = [] ∧ sleepCalls tr = [] ∧
      openStreamCalls tr =
        [(none,
          { device := index, channelCount := 2, sampleFormat := K.paFloat32,
            suggestedLatency := if lat.eqZero then info.defaultLowOutputLatency else lat,
            hostApiSpecificStreamInfo := none },
          SAMPLE_RATE, if F = 0 then K.paFramesPerBufferUnspecified else F, K.paClipOff)] ∧
      calls tr =
        (PaCall.Pa_GetDeviceInfo index ::
          (if lat.eqZero then [PaCall.Pa_GetDeviceInfo index] else [])) ++
        [PaCall.Pa_OpenStream none
          { device := index, channelCount := 2, sampleFormat := K.paFloat32,
            suggestedLatency := if lat.eqZero then info.defaultLowOutputLatency else lat,
            hostApiSpecificStreamInfo := none }
          SAMPLE_RATE (if F = 0 then K.paFramesPerBufferUnspecified else F) K.paClipOff] ++
        (if lib.Pa_OpenStream
              { device := index, channelCount := 2, sampleFormat := K.paFloat32,
                suggestedLatency := if lat.eqZero then info.defaultLowOutputLatency else lat,
                hostApiSpecificStreamInfo := none }
              SAMPLE_RATE (if F = 0 then K.paFramesPerBufferUnspecified else F) K.paClipOff
            ≠ K.paNoError then []
         else if lib.Pa_SetStreamFinishedCallback lib.newStream ≠ K.paNoError then
           [PaCall.Pa_SetStreamFinishedCallback lib.newStream,
            PaCall.Pa_CloseStream lib.newStream]
         else [PaCall.Pa_SetStreamFinishedCallback lib.newStream]) ∧
      (ok = true ↔
        (lib.Pa_OpenStream
              { device := index, channelCount := 2, sampleFormat := K.paFloat32,
                suggestedLatency := if lat.eqZero then info.defaultLowOutputLatency else lat,
                hostApiSpecificStreamInfo := none }
              SAMPLE_RATE (if F = 0 then K.paFramesPerBufferUnspecified else F) K.paClipOff
            = K.paNoError ∧
         lib.Pa_SetStreamFinishedCallback lib.newStream = K.paNoError)) ∧
      (ok = true → s'.stream = some lib.newStream) ∧
      (ok = false → s'.stream = none ∨ s'.stream = s.stream) := by
  unfold Sine.open
  by_cases hz : lat.eqZero = true
  · simp only [hidx, hz, hinfo hz, if_true, if_false, ne_eq, ite_not]
    split_ifs with h1 h2 h3 <;> refine ⟨_, _, _, rfl, ?_⟩ <;>
      simp [stderrOf, sleepCalls, openStreamCalls, calls, stderrOf_append,
        sleepCalls_append, openStreamCalls_append, calls_append, *]
  · have hz' : lat.eqZero = false := by simpa using hz
    simp only [hidx, hz', Bool.false_eq_true, if_false, ne_eq, ite_not]
    split_ifs with h1 h2 h3 <;> refine ⟨_, _, _, rfl, ?_⟩ <;>
      cases hdi : lib.Pa_GetDeviceInfo index <;>
      simp [stderrOf, sleepCalls, openStreamCalls, calls, stderrOf_append,
        sleepCalls_append, openStreamCalls_append, calls_append, *]

/-- The method `open` touches only the stream handle. -/
theorem open_keeps {α : Type} (K : PaConsts) (lib : PaLib) (s s' : Sine α)
    (index : PaDeviceIndex) (F : Nat) (lat : PaTime) (ok : Bool) (tr : List Event)
    (h : s.open K lib index F lat = some (s', ok, tr)) :
    s'.left_phase = s.left_phase ∧ s'.right_phase = s.right_phase ∧ s'.sine = s.sine ∧
      s'.message = s.message ∧ s'.lastFramesPerBuffer = s.lastFramesPerBuffer := by
  unfold Sine.open at h
  by_cases hidx : index = K.paNoDevice
  · simp only [hidx, if_true, Option.some.injEq, Prod.mk.injEq] at h
    obtain ⟨rfl, -, -⟩ := h
    exact ⟨rfl, rfl, rfl, rfl, rfl⟩
  · simp only [hidx, if_false] at h
    split at h
    · cases h
    · split_ifs at h <;>
        (simp only [Option.some.injEq, Prod.mk.injEq] at h
         obtain ⟨rfl, -, -⟩ := h
         exact ⟨rfl, rfl, rfl, rfl, rfl⟩)

/-! ## Lemmas on `main` -/

/-- The run of `main` when `Pa_Initialize` fails. -/
theorem main_initFail {α : Type} (K : PaConsts) (lib : PaLib) (M : Machine α) (a : Argv)
    (h : lib.Pa_Initialize ≠ K.paNoError) :
    main K lib M a = some
      { status := 1, sine := Sine.new M,
        trace :=
          [Event.stdout (Output.banner SAMPLE_RATE (mainFramesPerBuffer a)),
           Event.call PaCall.Pa_Initialize,
           Event.stderr Output.errorOccured,
           Event.stderr (Output.errorNumber lib.Pa_Initialize),
           Event.call (PaCall.Pa_GetErrorText lib.Pa_Initialize),
           Event.stderr (Output.errorMessage (lib.Pa_GetErrorText lib.Pa_Initialize))] } := by
  simp [main, ScopedPaHandler.new, ScopedPaHandler.result, ScopedPaHandler.destroy, h]

/-- The run of `main` when `open` dereferences a null pointer. -/
theorem main_nullInfo {α : Type} (K : PaConsts) (lib : PaLib) (M : Machine α) (a : Argv)
    (hinit : lib.Pa_Initialize = K.paNoError)
    (hopen : (Sine.new M).open K lib lib.Pa_GetDefaultOutputDevice (mainFramesPerBuffer a)
      (mainSuggestedLatency a) = none) :
    main K lib M a = none := by
  simp [main, ScopedPaHandler.new, ScopedPaHandler.result, hinit, hopen]

/-- The run of `main` after a successful `Pa_Initialize`, in terms of what
`open` did: the trace is the banner, `Pa_Initialize`,
`Pa_GetDefaultOutputDevice`, the events of `open`, and a tail that depends
on the result of `open` and of `Pa_StartStream` and whose last line on
standard output is "Test finished.". -/
theorem main_of_open {α : Type} (K : PaConsts) (lib : PaLib) (M : Machine α) (a : Argv)
    (s1 : Sine α) (ok : Bool) (tr : List Event)
    (hinit : lib.Pa_Initialize = K.paNoError)
    (hopen : (Sine.new M).open K lib lib.Pa_GetDefaultOutputDevice (mainFramesPerBuffer a)
      (mainSuggestedLatency a) = some (s1, ok, tr)) :
    ∃ e tail, main K lib M a = some e ∧ e.status = K.paNoError ∧
      e.trace = Event.stdout (Output.banner SAMPLE_RATE (mainFramesPerBuffer a)) ::
        Event.call PaCall.Pa_Initialize :: Event.call PaCall.Pa_GetDefaultOutputDevice ::
        (tr ++ tail) ∧
      stderrOf tail = [] ∧ openStreamCalls tail = [] ∧
      calls tail =
        (if ok = true then
          match s1.stream with
          | some st =>
            if lib.Pa_StartStream st = K.paNoError then
              [PaCall.Pa_StartStream st, PaCall.Pa_Sleep (NUM_SECONDS * 5000),
               PaCall.Pa_StopStream st, PaCall.Pa_CloseStream st, PaCall.Pa_Terminate]
            else [PaCall.Pa_StartStream st, PaCall.Pa_CloseStream st, PaCall.Pa_Terminate]
          | none => [PaCall.Pa_Terminate]
         else [PaCall.Pa_Terminate]) ∧
      e.sine.stream = (if ok = true then none else s1.stream) ∧
      ∃ pre, stdoutOf tail = pre ++ [Output.testFinished] := by
  have hk := open_keeps K lib _ _ _ _ _ _ _ hopen
  have hin : s1.InRange := by
    simp only [Sine.InRange, hk.1, hk.2.1]
    exact new_inRange M
  obtain ⟨s2, hs2, -, -, -, hstream, -⟩ := runCallbacks_total K lib.callbacks s1 hin
  unfold main
  simp only [ScopedPaHandler.new, ScopedPaHandler.result, ScopedPaHandler.destroy, hinit,
    hopen, ne_eq, not_true_eq_false, if_false, if_true]
  cases ok with
  | false =>
    simp only [Bool.false_eq_true, if_false]
    refine ⟨_, [Event.stdout Output.testFinished, Event.call PaCall.Pa_Terminate],
      rfl, rfl, ?_, ?_⟩
    · simp
    · refine ⟨?_, ?_, ?_, ?_, ⟨[], ?_⟩⟩ <;> simp [stderrOf, openStreamCalls, calls, stdoutOf]
  | true =>
    cases hst : s1.stream with
    | none =>
      simp only [Sine.start, Sine.close, hst, if_true, Bool.false_eq_true, if_false]
      refine ⟨_, [Event.stdout Output.testFinished, Event.call PaCall.Pa_Terminate],
        rfl, rfl, ?_, ?_⟩
      · simp
      · refine ⟨?_, ?_, ?_, ?_, ⟨[], ?_⟩⟩ <;>
          simp [stderrOf, openStreamCalls, calls, stdoutOf, hst]
    | some st =>
      by_cases hstart : lib.Pa_StartStream st = K.paNoError
      · have hst2 : s2.stream = some st := by rw [hstream, hst]
        simp only [Sine.start, Sine.stop, Sine.close, hst, hst2, hs2, hstart, if_true,
          decide_True]
        refine ⟨_, [Event.call (PaCall.Pa_StartStream st),
            Event.stdout (Output.playFor NUM_SECONDS),
            Event.call (PaCall.Pa_Sleep (NUM_SECONDS * 5000)),
            Event.stdout (Output.lastFramesPerBuffer s2.getLastFramesPerBuffer),
            Event.call (PaCall.Pa_StopStream st), Event.call (PaCall.Pa_CloseStream st),
            Event.stdout Output.testFinished, Event.call PaCall.Pa_Terminate],
          rfl, rfl, ?_, ?_⟩
        · simp
        · refine ⟨?_, ?_, ?_, ?_, ⟨[Output.playFor NUM_SECONDS,
            Output.lastFramesPerBuffer s2.getLastFramesPerBuffer], ?_⟩⟩ <;>
            simp [stderrOf, openStreamCalls, calls, stdoutOf]
      · simp only [Sine.start, Sine.close, hst, hstart, if_true, decide_False,
          Bool.false_eq_true, if_false]
        refine ⟨_, [Event.call (PaCall.Pa_StartStream st),
            Event.call (PaCall.Pa_CloseStream st),
            Event.stdout Output.testFinished, Event.call PaCall.Pa_Terminate],
          rfl, rfl, ?_, ?_⟩
        · simp
        · refine ⟨?_, ?_, ?_, ?_, ⟨[], ?_⟩⟩ <;>
            simp [stderrOf, openStreamCalls, calls, stdoutOf, hstart]

/-- The method `open` writes nothing to standard error and never sleeps. -/
theorem open_quiet {α : Type} (K : PaConsts) (lib : PaLib) (s s' : Sine α)
    (index : PaDeviceIndex) (F : Nat) (lat : PaTime) (ok : Bool) (tr : List Event)
    (h : s.open K lib index F lat = some (s', ok, tr)) :
    stderrOf tr = [] ∧ sleepCalls tr = [] := by
  by_cases hidx : index = K.paNoDevice
  · subst hidx
    rw [open_noDevice] at h
    simp only [Option.some.injEq, Prod.mk.injEq] at h
    obtain ⟨-, -, rfl⟩ := h
    exact ⟨rfl, rfl⟩
  · by_cases hz : lat.eqZero = true
    · cases hdi : lib.Pa_GetDeviceInfo index with
      | none =>
        rw [open_nullInfo K lib s index F lat hidx hz hdi] at h
        cases h
      | some info =>
        obtain ⟨s2, ok2, tr2, hrun, h1, h2, -⟩ :=
          open_device K lib s index F lat info hidx (fun _ => hdi)
        rw [hrun] at h
        simp only [Option.some.injEq, Prod.mk.injEq] at h
        obtain ⟨-, -, rfl⟩ := h
        exact ⟨h1, h2⟩
    · obtain ⟨s2, ok2, tr2, hrun, h1, h2, -⟩ :=
        open_device K lib s index F lat ⟨"", PaTime.zero⟩ hidx (fun hz' => absurd hz' hz)
      rw [hrun] at h
      simp only [Option.some.injEq, Prod.mk.injEq] at h
      obtain ⟨-, -, rfl⟩ := h
      exact ⟨h1, h2⟩

/-! ## The claims on `open` and `main` -/

/-- C5. Zero buffer size falls back to the sentinel: a call of `open` for
a device (`index != paNoDevice`, with a device info to read when the latency
is 0.0) makes exactly one `Pa_OpenStream` call, whose frames-per-buffer
argument is `paFramesPerBufferUnspecified` when `FramesPerBuffer == 0` and
`FramesPerBuffer` otherwise; in `main`, without a first command-line
argument `FramesPerBuffer` is 0, and the `Pa_OpenStream` call of the run
gets the sentinel. -/
theorem zero_buffer_size_sentinel {α : Type} (K : PaConsts) (lib : PaLib) (s : Sine α)
    (index : PaDeviceIndex) (F : Nat) (lat : PaTime) (info : PaDeviceInfo)
    (M : Machine α) (a : Argv)
    (hidx : index ≠ K.paNoDevice)
    (hinfo : lat.eqZero = true → lib.Pa_GetDeviceInfo index = some info) :
    (∃ s' ok tr, s.open K lib index F lat = some (s', ok, tr) ∧
      (openStreamCalls tr).map (fun c => c.2.2.2.1)
        = [if F = 0 then K.paFramesPerBufferUnspecified else F]) ∧
    (a.argc ≤ 1 → mainFramesPerBuffer a = 0) ∧
    (a.argc ≤ 1 → lib.Pa_Initialize = K.paNoError →
      lib.Pa_GetDefaultOutputDevice ≠ K.paNoDevice →
      ∀ dinfo, lib.Pa_GetDeviceInfo lib.Pa_GetDefaultOutputDevice = some dinfo →
      ∃ e, main K lib M a = some e ∧
        (openStreamCalls e.trace).map (fun c => c.2.2.2.1)
          = [K.paFramesPerBufferUnspecified]) := by
  refine ⟨?_, ?_, ?_⟩
  · obtain ⟨s', ok, tr, hrun, -, -, hcalls, -⟩ := open_device K lib s index F lat info hidx hinfo
    exact ⟨s', ok, tr, hrun, by rw [hcalls]; rfl⟩
  · intro hargc
    have : ¬ a.argc > 1 := by omega
    simp [mainFramesPerBuffer, this]
  · intro hargc hinit hdev dinfo hdinfo
    have hF : mainFramesPerBuffer a = 0 := by
      have : ¬ a.argc > 1 := by omega
      simp [mainFramesPerBuffer, this]
    obtain ⟨s1, ok, tr, hrun, -, -, hcalls, -⟩ :=
      open_device K lib (Sine.new M) lib.Pa_GetDefaultOutputDevice (mainFramesPerBuffer a)
        (mainSuggestedLatency a) dinfo hdev (fun _ => hdinfo)
    obtain ⟨e, tail, hmain, -, htrace, -, htail, -⟩ := main_of_open K lib M a s1 ok tr hinit hrun
    refine ⟨e, hmain, ?_⟩
    rw [htrace]
    simp [openStreamCalls, openStreamCalls_append, hcalls, htail, hF]

/-- C5 at a concrete input: the library in which every call succeeds, device
0, `FramesPerBuffer = 0`, and the command line without arguments. -/
theorem zero_buffer_size_sentinel_witness :
    (0 : PaDeviceIndex) ≠ portaudio_h.paNoDevice ∧
    (∃ s' ok tr, (Sine.new testMachine).open portaudio_h goodLib 0 0 PaTime.zero
        = some (s', ok, tr) ∧
      (openStreamCalls tr).map (fun c => c.2.2.2.1)
        = [if 0 = 0 then portaudio_h.paFramesPerBufferUnspecified else 0]) ∧
    mainFramesPerBuffer noArgs = 0 ∧
    (∃ e, main portaudio_h goodLib testMachine noArgs = some e ∧
        (openStreamCalls e.trace).map (fun c => c.2.2.2.1)
          = [portaudio_h.paFramesPerBufferUnspecified]) := by
  have h := zero_buffer_size_sentinel portaudio_h goodLib (Sine.new testMachine) 0 0
    PaTime.zero ⟨"default", ⟨7⟩⟩ testMachine noArgs (by decide) (fun _ => rfl)
  exact ⟨by decide, h.1, h.2.1 (by decide), h.2.2 (by decide) rfl (by decide) _ rfl⟩

/-- C9. Suggested-latency default: a call of `open` for a device
(`index != paNoDevice`; `info` is the device info when the latency is 0.0)
makes exactly one `Pa_OpenStream` call, with no input parameters, sample
rate 44100, and output parameters whose `suggestedLatency` is the device's
`defaultLowOutputLatency` when `suggestedLatency == 0.0` and the caller's
value otherwise, with `channelCount = 2`, `sampleFormat = paFloat32` and
`hostApiSpecificStreamInfo = NULL`; in `main`, without a second
command-line argument `suggestedLatency` is 0.0 and the call gets the
default device's `defaultLowOutputLatency`. -/
theorem suggested_latency_default {α : Type} (K : PaConsts) (lib : PaLib) (s : Sine α)
    (index : PaDeviceIndex) (F : Nat) (lat : PaTime) (info : PaDeviceInfo)
    (M : Machine α) (a : Argv)
    (hidx : index ≠ K.paNoDevice)
    (hinfo : lat.eqZero = true → lib.Pa_GetDeviceInfo index = some info) :
    (∃ s' ok tr fpb flags, s.open K lib index F lat = some (s', ok, tr) ∧
      openStreamCalls tr =
        [(none,
          { device := index, channelCount := 2, sampleFormat := K.paFloat32,
            suggestedLatency := if lat.eqZero then info.defaultLowOutputLatency else lat,
            hostApiSpecificStreamInfo := none },
          44100, fpb, flags)]) ∧
    (a.argc ≤ 2 → mainSuggestedLatency a = PaTime.zero ∧
      (mainSuggestedLatency a).eqZero = true) ∧
    (a.argc ≤ 2 → lib.Pa_Initialize = K.paNoError →
      lib.Pa_GetDefaultOutputDevice ≠ K.paNoDevice →
      ∀ dinfo, lib.Pa_GetDeviceInfo lib.Pa_GetDefaultOutputDevice = some dinfo →
      ∃ e fpb flags, main K lib M a = some e ∧
        openStreamCalls e.trace =
          [(none,
            { device := lib.Pa_GetDefaultOutputDevice, channelCount := 2,
              sampleFormat := K.paFloat32,
              suggestedLatency := dinfo.defaultLowOutputLatency,
              hostApiSpecificStreamInfo := none },
            44100, fpb, flags)]) := by
  have hlat : a.argc ≤ 2 → mainSuggestedLatency a = PaTime.zero := by
    intro hargc
    have : ¬ a.argc > 2 := by omega
    simp [mainSuggestedLatency, this]
  have hzero : PaTime.zero.eqZero = true := by decide
  refine ⟨?_, ?_, ?_⟩
  · obtain ⟨s', ok, tr, hrun, -, -, hcalls, -⟩ := open_device K lib s index F lat info hidx hinfo
    exact ⟨s', ok, tr, _, _, hrun, hcalls⟩
  · intro hargc
    rw [hlat hargc]
    exact ⟨rfl, hzero⟩
  · intro hargc hinit hdev dinfo hdinfo
    obtain ⟨s1, ok, tr, hrun, -, -, hcalls, -⟩ :=
      open_device K lib (Sine.new M) lib.Pa_GetDefaultOutputDevice (mainFramesPerBuffer a)
        (mainSuggestedLatency a) dinfo hdev (fun _ => hdinfo)
    obtain ⟨e, tail, hmain, -, htrace, -, htail, -⟩ := main_of_open K lib M a s1 ok tr hinit hrun
    refine ⟨e, (if mainFramesPerBuffer a = 0 then K.paFramesPerBufferUnspecified
      else mainFramesPerBuffer a), K.paClipOff, hmain, ?_⟩
    rw [htrace]
    simp only [openStreamCalls, openStreamCalls_append, hcalls, htail, List.append_nil,
      hlat hargc, hzero, if_true]

/-- C9 at a concrete input: device 0 of the library in which every call
succeeds, once with latency 0.0 and the command line without arguments. -/
theorem suggested_latency_default_witness :
    (0 : PaDeviceIndex) ≠ portaudio_h.paNoDevice ∧
    (∃ s' ok tr fpb flags, (Sine.new testMachine).open portaudio_h goodLib 0 256 PaTime.zero
        = some (s', ok, tr) ∧
      openStreamCalls tr =
        [(none,
          { device := 0, channelCount := 2, sampleFormat := portaudio_h.paFloat32,
            suggestedLatency :=
              if PaTime.zero.eqZero then
                (PaDeviceInfo.mk "default" ⟨7⟩).defaultLowOutputLatency
              else PaTime.zero,
            hostApiSpecificStreamInfo := none },
          44100, fpb, flags)]) ∧
    (mainSuggestedLatency noArgs = PaTime.zero ∧ (mainSuggestedLatency noArgs).eqZero = true) ∧
    (∃ e fpb flags, main portaudio_h goodLib testMachine noArgs = some e ∧
        openStreamCalls e.trace =
          [(none,
            { device := goodLib.Pa_GetDefaultOutputDevice, channelCount := 2,
              sampleFormat := portaudio_h.paFloat32,
              suggestedLatency := (PaDeviceInfo.mk "default" ⟨7⟩).defaultLowOutputLatency,
              hostApiSpecificStreamInfo := none },
            44100, fpb, flags)]) := by
  have h := suggested_latency_default portaudio_h goodLib (Sine.new testMachine) 0 256
    PaTime.zero ⟨"default", ⟨7⟩⟩ testMachine noArgs (by decide) (fun _ => rfl)
  exact ⟨by decide, h.1, h.2.1 (by decide), h.2.2 (by decide) rfl (by decide) _ rfl⟩

/-- The call of `open` with a caller-chosen latency, evaluated: the latency
0.05 reaches `Pa_OpenStream` unchanged, with 256 frames per buffer. -/
theorem open_example_twoArgs :
    ((Sine.new testMachine).open portaudio_h goodLib 0 256 ⟨0x3FA999999999999A⟩).map
        (fun r => (r.2.1, openStreamCalls r.2.2))
      = some (true, [((none : Option PaStreamParameters),
          (⟨0, 2, 1, ⟨0x3FA999999999999A⟩, none⟩ : PaStreamParameters), 44100, 256, 1)]) := by
  rfl

/-- C6 (evaluation at the failing input). In the run without arguments in
which every library call succeeds, `main` prints "Play for 5 seconds." and
then sleeps once, for 25000 milliseconds. -/
theorem sleep_is_25000_not_5000 :
    (main portaudio_h goodLib testMachine noArgs).map
        (fun e => (sleepCalls e.trace, stdoutOf e.trace, e.status))
      = some ([25000],
          [Output.banner 44100 0, Output.deviceName "default", Output.suggestedLatency ⟨7⟩,
           Output.playFor 5, Output.lastFramesPerBuffer 64, Output.testFinished], 0)
    ∧ (25000 : Nat) ≠ 5000 := by
  decide

/-- C7 (counterexample). With a library whose `Pa_OpenStream` fails, `open`
returns `false`, and `main` returns 0 and writes nothing to standard
error. -/
theorem open_failure_exits_zero :
    ((Sine.new testMachine).open portaudio_h openFailLib openFailLib.Pa_GetDefaultOutputDevice
        (mainFramesPerBuffer noArgs) (mainSuggestedLatency noArgs)).map (fun r => r.2.1)
      = some false ∧
    (main portaudio_h openFailLib testMachine noArgs).map
        (fun e => (e.status, stderrOf e.trace)) = some (0, []) ∧
    (0 : Int) ≠ 1 := by
  decide

/-- C7 (amended). Only a failure of `Pa_Initialize` ends in exit status 1:
then `main` writes the diagnostic (the fixed line, the error number and the
library's error text) to standard error and returns 1. When `Pa_Initialize`
succeeds and `Sine::open` returns `false`, or `Sine::open` returns `true`
and `Sine::start` returns `false`, `main` writes nothing to standard error,
prints "Test finished." as its last line on standard output and returns
`paNoError`. -/
theorem failure_exit_status {α : Type} (K : PaConsts) (lib : PaLib) (M : Machine α)
    (a : Argv) :
    (lib.Pa_Initialize ≠ K.paNoError →
      ∃ e, main K lib M a = some e ∧ e.status = 1 ∧
        stderrOf e.trace =
          [Output.errorOccured, Output.errorNumber lib.Pa_Initialize,
           Output.errorMessage (lib.Pa_GetErrorText lib.Pa_Initialize)]) ∧
    (lib.Pa_Initialize = K.paNoError →
      ∀ s1 ok tr,
        (Sine.new M).open K lib lib.Pa_GetDefaultOutputDevice (mainFramesPerBuffer a)
          (mainSuggestedLatency a) = some (s1, ok, tr) →
        (ok = false ∨ (s1.start K lib).2.1 = false) →
        ∃ e, main K lib M a = some e ∧ e.status = K.paNoError ∧ stderrOf e.trace = [] ∧
          ∃ pre, stdoutOf e.trace = pre ++ [Output.testFinished]) := by
  refine ⟨?_, ?_⟩
  · intro h
    refine ⟨_, main_initFail K lib M a h, rfl, ?_⟩
    simp [stderrOf]
  · intro hinit s1 ok tr hopen _
    obtain ⟨e, tail, hmain, hstatus, htrace, htail, -, -, -, pre, hpre⟩ :=
      main_of_open K lib M a s1 ok tr hinit hopen
    refine ⟨e, hmain, hstatus, ?_, ?_⟩
    · rw [htrace]
      simp [stderrOf, stderrOf_append, htail, (open_quiet K lib _ _ _ _ _ _ _ hopen).1]
    · refine ⟨Output.banner SAMPLE_RATE (mainFramesPerBuffer a) :: (stdoutOf tr ++ pre), ?_⟩
      rw [htrace]
      simp [stdoutOf, stdoutOf_append, hpre]

/-- C7 (amended) at concrete inputs: a library whose `Pa_Initialize` fails,
and a library whose `Pa_StartStream` fails. -/
theorem failure_exit_status_witness :
    (initFailLib.Pa_Initialize ≠ portaudio_h.paNoError ∧
      ∃ e, main portaudio_h initFailLib testMachine noArgs = some e ∧ e.status = 1 ∧
        stderrOf e.trace =
          [Output.errorOccured, Output.errorNumber initFailLib.Pa_Initialize,
           Output.errorMessage (initFailLib.Pa_GetErrorText initFailLib.Pa_Initialize)]) ∧
    (startFailLib.Pa_Initialize = portaudio_h.paNoError ∧
      ∃ e, main portaudio_h startFailLib testMachine noArgs = some e ∧
        e.status = portaudio_h.paNoError ∧ stderrOf e.trace = [] ∧
        ∃ pre, stdoutOf e.trace = pre ++ [Output.testFinished]) := by
  refine ⟨⟨by decide,
    (failure_exit_status portaudio_h initFailLib testMachine noArgs).1 (by decide)⟩,
    ⟨rfl, ?_⟩⟩
  refine (failure_exit_status portaudio_h startFailLib testMachine noArgs).2 rfl _ _ _ rfl
    (Or.inr ?_)
  rfl

/-- C8 (counterexample). When `Pa_Initialize` returns the error code
-10000, `main` returns 1, which is not that error code. -/
theorem init_failure_exits_one_not_code :
    initFailLib.Pa_Initialize = -10000 ∧
    (main portaudio_h initFailLib testMachine noArgs).map (fun e => e.status) = some 1 ∧
    (1 : Int) ≠ -10000 := by
  decide

/-- C8 (amended). In a run in which the library knows the device it names
as default output, `main` returns: the value is `paNoError` when
`Pa_Initialize` returned `paNoError`, whatever the later calls return, and
it is the constant 1 when `Pa_Initialize` returned an error. -/
theorem exit_status_by_init {α : Type} (K : PaConsts) (lib : PaLib) (M : Machine α)
    (a : Argv) (hdev : lib.DefaultDeviceKnown K) :
    ∃ e, main K lib M a = some e ∧
      e.status = (if lib.Pa_Initialize = K.paNoError then K.paNoError else 1) := by
  by_cases hinit : lib.Pa_Initialize = K.paNoError
  · simp only [hinit, if_true]
    by_cases hidx : lib.Pa_GetDefaultOutputDevice = K.paNoDevice
    · have hopen := open_noDevice K lib (Sine.new M) (mainFramesPerBuffer a)
        (mainSuggestedLatency a)
      rw [← hidx] at hopen
      obtain ⟨e, -, hmain, hstatus, -⟩ := main_of_open K lib M a _ _ _ hinit hopen
      exact ⟨e, hmain, hstatus⟩
    · obtain ⟨info, hinfo⟩ := Option.isSome_iff_exists.1 (hdev hidx)
      obtain ⟨s1, ok, tr, hopen, -⟩ :=
        open_device K lib (Sine.new M) lib.Pa_GetDefaultOutputDevice (mainFramesPerBuffer a)
          (mainSuggestedLatency a) info hidx (fun _ => hinfo)
      obtain ⟨e, -, hmain, hstatus, -⟩ := main_of_open K lib M a _ _ _ hinit hopen
      exact ⟨e, hmain, hstatus⟩
  · simp only [hinit, if_false]
    exact ⟨_, main_initFail K lib M a hinit, rfl⟩

/-- C8 (amended) at a concrete input: the library whose `Pa_StartStream`
fails, where `main` still returns `paNoError`. -/
theorem exit_status_by_init_witness :
    startFailLib.DefaultDeviceKnown portaudio_h ∧
    ∃ e, main portaudio_h startFailLib testMachine twoArgs = some e ∧
      e.status = (if startFailLib.Pa_Initialize = portaudio_h.paNoError
        then portaudio_h.paNoError else 1) :=
  ⟨by decide, exit_status_by_init portaudio_h startFailLib testMachine twoArgs (by decide)⟩

/-- C10 (counterexample). In the run without arguments in which every
library call succeeds, the calls of `main` are eleven, not the eight of
the claim: `Pa_GetDefaultOutputDevice` and two `Pa_GetDeviceInfo` calls
stand between `Pa_Initialize` and `Pa_OpenStream`. -/
theorem success_trace_has_device_queries :
    (main portaudio_h goodLib testMachine noArgs).map (fun e => calls e.trace)
      = some [PaCall.Pa_Initialize, PaCall.Pa_GetDefaultOutputDevice,
          PaCall.Pa_GetDeviceInfo 0, PaCall.Pa_GetDeviceInfo 0,
          PaCall.Pa_OpenStream none ⟨0, 2, 1, ⟨7⟩, none⟩ 44100 0 1,
          PaCall.Pa_SetStreamFinishedCallback 1, PaCall.Pa_StartStream 1,
          PaCall.Pa_Sleep 25000, PaCall.Pa_StopStream 1, PaCall.Pa_CloseStream 1,
          PaCall.Pa_Terminate] ∧
    (main portaudio_h goodLib testMachine noArgs).map (fun e => (calls e.trace).length)
      ≠ some 8 := by
  decide

/-- The three stream methods on an object whose stream handle is null. -/
theorem null_stream_methods {α : Type} (K : PaConsts) (lib : PaLib) (s : Sine α)
    (h : s.stream = none) :
    s.start K lib = (s, false, []) ∧ s.stop K lib = (s, false, []) ∧
      s.close K lib = (s, false, []) := by
  simp [Sine.start, Sine.stop, Sine.close, h]

/-- C10 (amended). Balanced lifecycle, for a run in which the library knows
the device it names as default output: `main` returns, and
(1) when every call succeeds the calls are exactly `Pa_Initialize`,
`Pa_GetDefaultOutputDevice`, `Pa_GetDeviceInfo` (twice when the suggested
latency is 0.0, once otherwise), `Pa_OpenStream`,
`Pa_SetStreamFinishedCallback`, `Pa_StartStream`, `Pa_Sleep`,
`Pa_StopStream`, `Pa_CloseStream`, `Pa_Terminate`, in that order;
(2) `Pa_Terminate` is called exactly once if `Pa_Initialize` returned
`paNoError` and never otherwise;
(3) when the `Pa_OpenStream` call of the run returned `paNoError`, the last
two calls are `Pa_CloseStream` of the opened stream and then `Pa_Terminate`,
with no other `Pa_CloseStream` and no other `Pa_Terminate` before, and the
stream handle is null at the end;
(4) `start`, `stop` and `close` on an object whose stream handle is null
return `false`, change nothing and make no library call. -/
theorem lifecycle_balanced {α : Type} (K : PaConsts) (lib : PaLib) (M : Machine α)
    (a : Argv) (hdev : lib.DefaultDeviceKnown K) :
    ∃ e, main K lib M a = some e ∧
      (lib.AllSucceed K → ∃ p fpb fl,
        calls e.trace =
          [PaCall.Pa_Initialize, PaCall.Pa_GetDefaultOutputDevice,
           PaCall.Pa_GetDeviceInfo lib.Pa_GetDefaultOutputDevice] ++
          (if (mainSuggestedLatency a).eqZero then
            [PaCall.Pa_GetDeviceInfo lib.Pa_GetDefaultOutputDevice] else []) ++
          [PaCall.Pa_OpenStream none p SAMPLE_RATE fpb fl,
           PaCall.Pa_SetStreamFinishedCallback lib.newStream,
           PaCall.Pa_StartStream lib.newStream,
           PaCall.Pa_Sleep (NUM_SECONDS * 5000),
           PaCall.Pa_StopStream lib.newStream,
           PaCall.Pa_CloseStream lib.newStream,
           PaCall.Pa_Terminate]) ∧
      terminateCount (calls e.trace) = (if lib.Pa_Initialize = K.paNoError then 1 else 0) ∧
      (∀ c ∈ openStreamCalls e.trace,
        lib.Pa_OpenStream c.2.1 c.2.2.1 c.2.2.2.1 c.2.2.2.2 = K.paNoError →
        ∃ pre, calls e.trace =
            pre ++ [PaCall.Pa_CloseStream lib.newStream, PaCall.Pa_Terminate] ∧
          closeCalls pre = [] ∧ terminateCount pre = 0 ∧ e.sine.stream = none) ∧
      (∀ s : Sine α, s.stream = none →
        s.start K lib = (s, false, []) ∧ s.stop K lib = (s, false, []) ∧
        s.close K lib = (s, false, [])) := by
  by_cases hinit : lib.Pa_Initialize = K.paNoError
  · by_cases hidx : lib.Pa_GetDefaultOutputDevice = K.paNoDevice
    · have hopen := open_noDevice K lib (Sine.new M) (mainFramesPerBuffer a)
        (mainSuggestedLatency a)
      rw [← hidx] at hopen
      obtain ⟨e, tail, hmain, -, htrace, -, htailo, htailc, -⟩ :=
        main_of_open K lib M a _ _ _ hinit hopen
      refine ⟨e, hmain, ?_, ?_, ?_, null_stream_methods K lib⟩
      · intro hall
        exact absurd hidx hall.2.1
      · rw [htrace]
        simp [calls, htailc, terminateCount, hinit]
      · rw [htrace]
        simp [openStreamCalls, htailo]
    · obtain ⟨info, hinfo⟩ := Option.isSome_iff_exists.1 (hdev hidx)
      obtain ⟨s1, ok, tr, hopen, -, -, hopc, hcalls, hok, hstream, hnostream⟩ :=
        open_device K lib (Sine.new M) lib.Pa_GetDefaultOutputDevice (mainFramesPerBuffer a)
          (mainSuggestedLatency a) info hidx (fun _ => hinfo)
      obtain ⟨e, tail, hmain, -, htrace, -, htailo, htailc, hend, -⟩ :=
        main_of_open K lib M a _ _ _ hinit hopen
      have hall : calls e.trace = PaCall.Pa_Initialize :: PaCall.Pa_GetDefaultOutputDevice ::
          (calls tr ++ calls tail) := by
        rw [htrace]
        simp [calls, calls_append]
      have hopall : openStreamCalls e.trace = openStreamCalls tr := by
        rw [htrace]
        simp [openStreamCalls, openStreamCalls_append, htailo]
      refine ⟨e, hmain, ?_, ?_, ?_, null_stream_methods K lib⟩
      · intro hsucc
        obtain ⟨-, -, -, hO, hS, hT, -, -⟩ := hsucc
        have hokt : ok = true := hok.2 ⟨hO _ _ _ _, hS _⟩
        subst hokt
        have hs1 := hstream rfl
        refine ⟨{ device := lib.Pa_GetDefaultOutputDevice, channelCount := 2,
                  sampleFormat := K.paFloat32,
                  suggestedLatency :=
                    if (mainSuggestedLatency a).eqZero then info.defaultLowOutputLatency
                    else mainSuggestedLatency a,
                  hostApiSpecificStreamInfo := none },
          (if mainFramesPerBuffer a = 0 then K.paFramesPerBufferUnspecified
                 else mainFramesPerBuffer a), K.paClipOff, ?_⟩
        rw [hs1] at htailc
        simp only [if_true] at htailc
        rw [hall, hcalls, htailc]
        simp only [hO, hS, hT, ne_eq, not_true_eq_false, if_false, if_true]
        split_ifs <;> simp
      · cases ok with
        | false =>
          simp only [Bool.false_eq_true, if_false] at htailc
          rw [hall, hcalls, htailc]
          simp only [hinit, if_true]
          split_ifs <;> simp [terminateCount, terminateCount_append]
        | true =>
          rw [hstream rfl] at htailc
          simp only [if_true] at htailc
          rw [hall, hcalls, htailc]
          simp only [hinit, if_true]
          split_ifs <;> simp [terminateCount, terminateCount_append]
      · intro c hc hcok
        rw [hopall, hopc] at hc
        simp only [List.mem_singleton] at hc
        subst hc
        simp only at hcok
        by_cases hS : lib.Pa_SetStreamFinishedCallback lib.newStream = K.paNoError
        · have hokt : ok = true := hok.2 ⟨hcok, hS⟩
          subst hokt
          have hs1 := hstream rfl
          rw [hs1] at htailc
          simp only [if_true] at htailc
          by_cases hT : lib.Pa_StartStream lib.newStream = K.paNoError
          · refine ⟨PaCall.Pa_Initialize :: PaCall.Pa_GetDefaultOutputDevice ::
              (calls tr ++ [PaCall.Pa_StartStream lib.newStream,
                PaCall.Pa_Sleep (NUM_SECONDS * 5000),
                PaCall.Pa_StopStream lib.newStream]), ?_, ?_, ?_, ?_⟩
            · rw [hall, htailc]
              simp [hT]
            · rw [hcalls]
              simp only [hcok, hS, ne_eq, not_true_eq_false, if_false]
              split_ifs <;> simp [closeCalls, closeCalls_append]
            · rw [hcalls]
              simp only [hcok, hS, ne_eq, not_true_eq_false, if_false]
              split_ifs <;> simp [terminateCount, terminateCount_append]
            · rw [hend]
              simp
          · refine ⟨PaCall.Pa_Initialize :: PaCall.Pa_GetDefaultOutputDevice ::
              (calls tr ++ [PaCall.Pa_StartStream lib.newStream]), ?_, ?_, ?_, ?_⟩
            · rw [hall, htailc]
              simp [hT]
            · rw [hcalls]
              simp only [hcok, hS, ne_eq, not_true_eq_false, if_false]
              split_ifs <;> simp [closeCalls, closeCalls_append]
            · rw [hcalls]
              simp only [hcok, hS, ne_eq, not_true_eq_false, if_false]
              split_ifs <;> simp [terminateCount, terminateCount_append]
            · rw [hend]
              simp
        · have hokf : ok = false := by
            cases ok with
            | false => rfl
            | true => exact absurd (hok.1 rfl).2 hS
          subst hokf
          simp only [Bool.false_eq_true, if_false] at htailc
          refine ⟨PaCall.Pa_Initialize :: PaCall.Pa_GetDefaultOutputDevice ::
              ((PaCall.Pa_GetDeviceInfo lib.Pa_GetDefaultOutputDevice ::
                (if (mainSuggestedLatency a).eqZero then
                  [PaCall.Pa_GetDeviceInfo lib.Pa_GetDefaultOutputDevice] else [])) ++
              [PaCall.Pa_OpenStream none
                { device := lib.Pa_GetDefaultOutputDevice, channelCount := 2,
                  sampleFormat := K.paFloat32,
                  suggestedLatency :=
                    if (mainSuggestedLatency a).eqZero then info.defaultLowOutputLatency
                    else mainSuggestedLatency a,
                  hostApiSpecificStreamInfo := none }
                SAMPLE_RATE
                (if mainFramesPerBuffer a = 0 then K.paFramesPerBufferUnspecified
                 else mainFramesPerBuffer a) K.paClipOff,
               PaCall.Pa_SetStreamFinishedCallback lib.newStream]), ?_, ?_, ?_, ?_⟩
          · rw [hall, hcalls, htailc]
            simp [hcok, hS]
          · split_ifs <;> simp [closeCalls, closeCalls_append]
          · split_ifs <;> simp [terminateCount, terminateCount_append]
          · rw [hend]
            simp only [Bool.false_eq_true, if_false]
            rcases hnostream rfl with h | h
            · exact h
            · rw [h]; rfl
  · refine ⟨_, main_initFail K lib M a hinit, ?_, ?_, ?_, null_stream_methods K lib⟩
    · intro hall
      exact absurd hall.1 hinit
    · simp [calls, terminateCount, hinit]
    · simp [openStreamCalls]

/-- C10 (amended) at a concrete input: the library in which every call
succeeds and the command line `256 0.05`. -/
theorem lifecycle_balanced_witness :
    goodLib.DefaultDeviceKnown portaudio_h ∧
    ∃ e, main portaudio_h goodLib testMachine twoArgs = some e ∧
      calls e.trace =
        [PaCall.Pa_Initialize, PaCall.Pa_GetDefaultOutputDevice, PaCall.Pa_GetDeviceInfo 0,
         PaCall.Pa_OpenStream none ⟨0, 2, 1, ⟨0x3FA999999999999A⟩, none⟩ 44100 256 1,
         PaCall.Pa_SetStreamFinishedCallback 1, PaCall.Pa_StartStream 1,
         PaCall.Pa_Sleep 25000, PaCall.Pa_StopStream 1, PaCall.Pa_CloseStream 1,
         PaCall.Pa_Terminate] ∧
      terminateCount (calls e.trace) = 1 ∧
      e.sine.stream = none := by
  obtain ⟨e, hmain, -, hterm, hclose, -⟩ :=
    lifecycle_balanced portaudio_h goodLib testMachine twoArgs (by decide)
  have hrun : (main portaudio_h goodLib testMachine twoArgs).map
      (fun e => (calls e.trace, e.sine.stream)) = some (
        [PaCall.Pa_Initialize, PaCall.Pa_GetDefaultOutputDevice, PaCall.Pa_GetDeviceInfo 0,
         PaCall.Pa_OpenStream none ⟨0, 2, 1, ⟨0x3FA999999999999A⟩, none⟩ 44100 256 1,
         PaCall.Pa_SetStreamFinishedCallback 1, PaCall.Pa_StartStream 1,
         PaCall.Pa_Sleep 25000, PaCall.Pa_StopStream 1, PaCall.Pa_CloseStream 1,
         PaCall.Pa_Terminate], none) := by decide
  rw [hmain] at hrun
  simp only [Option.map_some', Option.some.injEq, Prod.mk.injEq] at hrun
  exact ⟨by decide, e, hmain, hrun.1, by simpa using hterm, hrun.2⟩

end FlyVR
